import Mathlib

/-!
Verification of the real-estate-map data pipeline (`main.py`).

The file shallowly embeds the program's core:
* `fetch_page` — one page request of the paginated transaction API
  (status check, result-code envelope check, item parsing);
* `fetch_all_apt_trade_data_async` — the collector: page 1 synchronously,
  `totalCount` discovery, fan-out of pages 2..totalPages, gather and merge;
* `get_lat_lon` — Kakao keyword geocoding with the in-process address cache
  and tiered candidate selection;
* cache JSON serialisation (save at shutdown / load at startup);
* the per-record enrichment step of `main` (append iff lat and lng truthy);
* the counting-semaphore admission gate as a transition system.

Network responses are inputs to the embedded functions: an outcome value
says what the wire returned (or that the request raised).  Python
exceptions are modelled with `Except`: `.error` means the corresponding
Python code raised and the exception propagates.
-/

/-- Python `dict` lookup on an association list (first binding wins;
lists built with `dictInsert` from `[]` have unique keys, like a dict). -/
def dictLookup {α : Type} : List (String × α) → String → Option α
  | [], _ => none
  | (k, v) :: rest, key => if k = key then some v else dictLookup rest key

/-- Python `d[key] = v`: overwrite in place if the key exists, else append. -/
def dictInsert {α : Type} : List (String × α) → String → α → List (String × α)
  | [], key, v => [(key, v)]
  | (k, w) :: rest, key, v =>
    if k = key then (key, v) :: rest else (k, w) :: dictInsert rest key v

/-- Test whether `pat` is a prefix of `s` (character lists). -/
def listStartsWith : List Char → List Char → Bool
  | [], _ => true
  | _ :: _, [] => false
  | a :: as, b :: bs => a == b && listStartsWith as bs

/-- Test whether `pat` occurs as a contiguous substring of `s` (character lists). -/
def listContainsSub (pat : List Char) : List Char → Bool
  | [] => listStartsWith pat []
  | c :: rest => listStartsWith pat (c :: rest) || listContainsSub pat rest

/-- Python `pat in s` on strings: substring containment. -/
def strContains (s pat : String) : Bool :=
  listContainsSub pat.data s.data

/-- Python truthiness of an optional string: `None` and `""` are falsy. -/
def pyTruthyStr : Option String → Bool
  | some s => !s.data.isEmpty
  | none => false

/-- Whitespace test for Python's `str.strip()` (ASCII whitespace cases). -/
def isPySpace (c : Char) : Bool :=
  c == ' ' || c == '\t' || c == '\n' || c == '\r' || c == '\x0b' || c == '\x0c'

/-- Drop leading whitespace characters. -/
def dropWhileSpace : List Char → List Char
  | [] => []
  | c :: rest => if isPySpace c then dropWhileSpace rest else c :: rest

/-- Characters of `str.strip()`: whitespace removed from both ends. -/
def pyStripChars (cs : List Char) : List Char :=
  (dropWhileSpace (dropWhileSpace cs).reverse).reverse

/-- Python `s.strip()`. -/
def pyStrip (s : String) : String :=
  ⟨pyStripChars s.data⟩

/-- Python expression `child.text.strip() if child.text else ""` (line 60 / 98 of `main.py`). -/
def pyStripText : Option String → String
  | some s => if s.data.isEmpty then "" else pyStrip s
  | none => ""

/-- Render an optional string the way Python's `print` renders the value
(`None` prints as `"None"`). -/
def pyShowOpt : Option String → String
  | some s => s
  | none => "None"

/-- Digits-and-accumulator helper for `python_int`. -/
def parseNatDigitsAux : List Char → Nat → Option Nat
  | [], acc => some acc
  | c :: rest, acc =>
    if '0' ≤ c ∧ c ≤ '9' then
      parseNatDigitsAux rest (acc * 10 + (c.toNat - '0'.toNat))
    else none

/-- All-digit parse of a non-empty character list. -/
def parseNatDigits : List Char → Option Nat
  | [] => none
  | cs => parseNatDigitsAux cs 0

/-- Python `int(text)` on an XML element's optional text: `None` raises
`TypeError`; otherwise surrounding whitespace is stripped, an optional
sign is allowed, and the rest must be decimal digits (else `ValueError`). -/
def python_int : Option String → Except String Int
  | none => .error "TypeError: int() argument must not be None"
  | some s =>
    match pyStripChars s.data with
    | '-' :: rest =>
      match parseNatDigits rest with
      | some n => .ok (-(n : Int))
      | none => .error "ValueError: invalid literal for int()"
    | '+' :: rest =>
      match parseNatDigits rest with
      | some n => .ok (n : Int)
      | none => .error "ValueError: invalid literal for int()"
    | cs =>
      match parseNatDigits cs with
      | some n => .ok (n : Int)
      | none => .error "ValueError: invalid literal for int()"

/-- Model of `math.ceil(a / b)` for an integer `a` and positive integer `b`
(line 102 of `main.py`; exact rational ceiling — the float division is
exact for the magnitudes the API can return). -/
def py_ceil_div (a : Int) (b : Nat) : Int :=
  -(Int.ediv (-a) (Int.ofNat b))

/-- Model of `asyncio.gather` without `return_exceptions`: if every task returned, the
list of results in task order; if some task raised, the exception
propagates (the model reports the error of the earliest task in the list;
the program only ever observes *whether* gather raised). -/
def gather {α : Type} : List (Except String α) → Except String (List α)
  | [] => .ok []
  | .error m :: _ => .error m
  | .ok a :: rest =>
    match gather rest with
    | .ok l => .ok (a :: l)
    | .error m => .error m

-- ------------------------- XML response model ------------------------- --

/-- One XML element as the program reads it: only its text. `text = none`
models `elem.text is None`. -/
structure XmlElem where
  text : Option String
deriving DecidableEq

/-- One child of an `item` element: tag and optional text. -/
structure XmlChild where
  tag : String
  text : Option String
deriving DecidableEq

/-- One `item` element of a page response. -/
structure XmlItem where
  children : List XmlChild
deriving DecidableEq

/-- The parsed XML tree of a page response, restricted to the nodes the
program looks up (`resultCode`, `resultMsg`, `totalCount`, `item`); a
`none` field models `root.find(..) is None`. -/
structure XmlRoot where
  resultCode : Option XmlElem
  resultMsg : Option XmlElem
  totalCount : Option XmlElem
  items : List XmlItem
deriving DecidableEq

/-- A transaction record: the flat tag → text mapping built per item. -/
abbrev TransactionRecord := List (String × String)

/-- Lines 57-61 / 95-98: one `item` element flattened to a dict. -/
def parseItem (it : XmlItem) : TransactionRecord :=
  it.children.foldl (fun d c => dictInsert d c.tag (pyStripText c.text)) []

/-- What one page request produced on the wire: either the coroutine
raised (transport error while getting the response or its body, or
`ET.fromstring` failed on the body), or a status code plus parse outcome. -/
inductive HttpOutcome where
  | exn (msg : String)
  | resp (status : Nat) (body : Except String XmlRoot)

/-- Result of running `fetch_page` on one outcome: the diagnostics it
printed and either the parsed records or the exception it raised. -/
structure PageResult where
  logs : List String
  items : Except String (List TransactionRecord)

/-- Lines 37-63, `fetch_page`: non-200 status → log and `[]`;
result-code envelope ≠ `'000'` → log (`resultMsg` must exist, else the
`.text` access raises `AttributeError`) and `[]`; otherwise parse every
`item`.  There is no `try` here: a raised exception propagates. -/
def fetch_page (pageNo : Nat) (o : HttpOutcome) : PageResult :=
  match o with
  | .exn m => ⟨[], .error m⟩
  | .resp status body =>
    if status ≠ 200 then
      ⟨[s!"[오류] {pageNo}페이지 통신 실패 (상태 코드: {status})"], .ok []⟩
    else
      match body with
      | .error m => ⟨[], .error m⟩
      | .ok root =>
        match root.resultCode with
        | some rc =>
          if rc.text ≠ some "000" then
            match root.resultMsg with
            | some msgElem =>
              ⟨[s!"[API 오류 - {pageNo}페이지] {pyShowOpt msgElem.text}"], .ok []⟩
            | none => ⟨[], .error "AttributeError: NoneType has no attribute text"⟩
          else ⟨[], .ok (root.items.map parseItem)⟩
        | none => ⟨[], .ok (root.items.map parseItem)⟩

/-- Python `range(2, total_pages + 1)` as a list of page numbers. -/
def pageNosFor (total_pages : Int) : List Nat :=
  List.range' 2 (total_pages - 1).toNat

/-- Result of one `fetch_all_apt_trade_data_async` call: the page numbers
it requested (in issue order: 1, then 2..totalPages), the diagnostics of
the page tasks (in page order; the true interleaving is by completion),
and either the merged record list or the exception that propagated. -/
structure CollectResult where
  requestedPages : List Nat
  logs : List String
  result : Except String (List TransactionRecord)

/-- Lines 65-122, `fetch_all_apt_trade_data_async`.  Page 1 is requested
first (its status is **not** checked); a missing `totalCount` logs and
returns `[]`; otherwise `totalCount` is `int`-parsed, page-1 items are
retained, `total_pages = ceil(totalCount / num_of_rows)` is computed and
pages 2..total_pages are fetched through `fetch_page` and gathered: any
raised page exception propagates out of the whole call. -/
def fetch_all_apt_trade_data_async (first : HttpOutcome)
    (pageOutcome : Nat → HttpOutcome) (num_of_rows : Nat) : CollectResult :=
  match first with
  | .exn m => ⟨[1], [], .error m⟩
  | .resp _ body =>
    match body with
    | .error m => ⟨[1], [], .error m⟩
    | .ok root =>
      match root.totalCount with
      | none => ⟨[1], ["[알림] 데이터를 찾을 수 없거나 API 응답이 올바르지 않습니다."], .ok []⟩
      | some tcElem =>
        match python_int tcElem.text with
        | .error m => ⟨[1], [], .error m⟩
        | .ok total_count =>
          let firstItems := root.items.map parseItem
          if num_of_rows = 0 then ⟨[1], [], .error "ZeroDivisionError: division by zero"⟩
          else
            let total_pages := py_ceil_div total_count num_of_rows
            let pageNos := pageNosFor total_pages
            let pageResults := pageNos.map (fun p => fetch_page p (pageOutcome p))
            match gather (pageResults.map PageResult.items) with
            | .error m => ⟨1 :: pageNos, (pageResults.map PageResult.logs).flatten, .error m⟩
            | .ok pages =>
              ⟨1 :: pageNos, (pageResults.map PageResult.logs).flatten,
                .ok (firstItems ++ pages.flatten)⟩

-- ------------------------- Geocoding model ------------------------- --

/-- A resolved location triple `(place_name, lat, lng)` as the program
builds it (strings or `None`). -/
abbrev Triple := Option String × Option String × Option String

/-- The global `ADDRESS_CACHE`: address → resolved triple. -/
abbrev Cache := List (String × Triple)

/-- One document of the Kakao keyword-search response, restricted to the
keys the program reads (§6 of the spec: `category_name`, `place_name`,
`x`, `y`); a `none` field models an absent key, whose subscript access
raises `KeyError`. -/
structure GeoDoc where
  category_name : Option String
  place_name : Option String
  x : Option String
  y : Option String
deriving DecidableEq

/-- What the geocoding call produced: `failure` when `fetch_post` returned
its `ERROR:` string or the body was not JSON (so `json.loads` raised), or
a parsed JSON object with or without a `documents` key. -/
inductive GeoResp where
  | failure (msg : String)
  | success (documents : Option (List GeoDoc))

/-- One list comprehension `[x for x in docs if marker in x['category_name']]`:
evaluated left to right, raising `KeyError` at the first document without
a `category_name` key. -/
def filterByCategory : List GeoDoc → String → Except String (List GeoDoc)
  | [], _ => .ok []
  | d :: rest, marker =>
    match d.category_name with
    | none => .error "KeyError: category_name"
    | some cat =>
      match filterByCategory rest marker with
      | .error m => .error m
      | .ok l => .ok (if strContains cat marker then d :: l else l)

/-- The body of the `try` block of `get_lat_lon` (lines 136-159): parse
the JSON, read `documents`, tiered candidate selection — apartment marker
first, then residential-facility marker, else the first document with the
place name left unset; an empty `documents` list yields `(None, None, None)`.
`.error` means the block raised and control reaches the `except` handler. -/
def resolve_body (resp : GeoResp) : Except String Triple :=
  match resp with
  | .failure m => .error m
  | .success none => .error "KeyError: documents"
  | .success (some docs) =>
    match docs with
    | [] => .ok (none, none, none)
    | d0 :: _ =>
      match filterByCategory docs "아파트" with
      | .error m => .error m
      | .ok apt =>
        match (if apt.isEmpty then filterByCategory docs "주거시설" else .ok apt) with
        | .error m => .error m
        | .ok sel =>
          match sel with
          | doc :: _ =>
            match doc.y, doc.x with
            | some la, some ln => .ok (doc.place_name, some la, some ln)
            | none, _ => .error "KeyError: y"
            | some _, none => .error "KeyError: x"
          | [] =>
            match d0.y, d0.x with
            | some la, some ln => .ok (none, some la, some ln)
            | none, _ => .error "KeyError: y"
            | some _, none => .error "KeyError: x"

/-- Result of one `get_lat_lon` call: the returned triple, the cache
afterwards, and whether a network request was issued. -/
structure ResolveResult where
  triple : Triple
  cache : Cache
  networkCalled : Bool
deriving DecidableEq

/-- Lines 127-167, `get_lat_lon`: a cache hit returns the stored triple
with no network call; on a miss the API is called, a successful `try`
body stores its triple into the cache and returns it, and an exception
anywhere in the body is swallowed by the `except` handler, which returns
`(None, None, None)` without touching the cache. -/
def get_lat_lon (cache : Cache) (address : String) (resp : GeoResp) : ResolveResult :=
  match dictLookup cache address with
  | some t => ⟨t, cache, false⟩
  | none =>
    match resolve_body resp with
    | .ok t => ⟨t, dictInsert cache address t, true⟩
    | .error _ => ⟨(none, none, none), cache, true⟩

-- ------------------------- Cache persistence ------------------------- --

/-- JSON values, restricted to what the cache file can hold. -/
inductive JValue where
  | null
  | str (s : String)
  | arr (elems : List JValue)
  | obj (entries : List (String × JValue))

/-- Serialise an optional string (`None` ↦ JSON `null`). -/
def jOfOpt : Option String → JValue
  | some s => .str s
  | none => .null

/-- Lines 230-231: `json.dump(ADDRESS_CACHE, f)` — each triple becomes a
3-element JSON array, the mapping becomes a JSON object in key order. -/
def saveCache (c : Cache) : JValue :=
  .obj (c.map (fun kv => (kv.1, .arr [jOfOpt kv.2.1, jOfOpt kv.2.2.1, jOfOpt kv.2.2.2])))

/-- Read back one serialised optional string. -/
def optOfJ : JValue → Option (Option String)
  | .null => some none
  | .str s => some (some s)
  | _ => none

/-- Read back one serialised triple (a 3-element array of string-or-null). -/
def loadTriple : JValue → Option Triple
  | .arr [a, b, c] =>
    match optOfJ a, optOfJ b, optOfJ c with
    | some p, some la, some ln => some (p, la, ln)
    | _, _, _ => none
  | _ => none

/-- Read back the entries of the serialised cache object, in order. -/
def loadEntries : List (String × JValue) → Option Cache
  | [] => some []
  | (k, v) :: rest =>
    match loadTriple v, loadEntries rest with
    | some t, some c => some ((k, t) :: c)
    | _, _ => none

/-- Lines 178-179: `json.load` of the cache file at startup, decoded back
into the address → triple mapping (each value a 3-element array whose
entries the next run uses as a triple). -/
def loadCache : JValue → Option Cache
  | .obj entries => loadEntries entries
  | _ => none

-- ------------------------- Main-loop record step ------------------------- --

/-- One enriched output record as built on line 216 of `main.py`. -/
structure OutRecord where
  address : String
  place_name : String
  aptNm : String
  lat : String
  lng : String
  date : String
  sggCd : String
  excluUseAr : String
  dealingGbn : String
  floor : String
  dealAmount : String
deriving DecidableEq

/-- Python `x[key]` on a record dict: `KeyError` when the key is absent
(fatal — `main` has no handler for it). -/
def pySubscript (x : TransactionRecord) (k : String) : Except String String :=
  match dictLookup x k with
  | some v => .ok v
  | none => .error ("KeyError: " ++ k)

/-- Python `str.zfill(width)`: left-pad with zeros up to `width`, keeping
a leading sign in front of the padding. -/
def zfill (s : String) (width : Nat) : String :=
  if width ≤ s.length then s
  else
    match s.data with
    | '-' :: rest => ⟨'-' :: (List.replicate (width - s.length) '0' ++ rest)⟩
    | '+' :: rest => ⟨'+' :: (List.replicate (width - s.length) '0' ++ rest)⟩
    | cs => ⟨List.replicate (width - s.length) '0' ++ cs⟩

/-- Lines 206-216 of `main`, for one fetched record `x`: synthesise the
address `f"{korName} {umdNm} {jibun}"`, resolve it through the cache /
geocoder, and append the enriched record to `data` exactly when both
resolved `lat` and `lng` are truthy (non-None, non-empty); the record's
place name falls back to `aptNm` when resolution yielded none.  `.error`
models a fatal `KeyError` on a missing record field. -/
def process_record (cache : Cache) (resp : GeoResp) (korName sggCd : String)
    (x : TransactionRecord) (data : List OutRecord) :
    Except String (List OutRecord × Cache × Bool) := do
  let umd ← pySubscript x "umdNm"
  let jibun ← pySubscript x "jibun"
  let address := korName ++ " " ++ umd ++ " " ++ jibun
  let r := get_lat_lon cache address resp
  let pn := r.triple.1
  let lat := r.triple.2.1
  let lng := r.triple.2.2
  if pyTruthyStr lat && pyTruthyStr lng then do
    let pnOut ← match pn with
      | none => pySubscript x "aptNm"
      | some p => pure p
    let aptNm ← pySubscript x "aptNm"
    let year ← pySubscript x "dealYear"
    let month ← pySubscript x "dealMonth"
    let day ← pySubscript x "dealDay"
    let exclu ← pySubscript x "excluUseAr"
    let gbn ← pySubscript x "dealingGbn"
    let fl ← pySubscript x "floor"
    let amount ← pySubscript x "dealAmount"
    .ok (data ++ [⟨address, pnOut, aptNm, lat.getD "", lng.getD "",
      year ++ zfill month 2 ++ zfill day 2, sggCd, exclu, gbn, fl, amount⟩],
      r.cache, r.networkCalled)
  else
    .ok (data, r.cache, r.networkCalled)

-- ------------------------- Concurrency gate ------------------------- --

/-- State of the admission gate during one `collect` call:
`available` is the semaphore counter, `inFlight` the tasks that entered
`async with semaphore` and have not yet left it, `pending` the created
tasks still waiting to enter. -/
structure GateState where
  available : Nat
  inFlight : Nat
  pending : Nat
deriving DecidableEq

/-- Transitions of `asyncio.Semaphore` as `fetch_page` uses it (line 39):
a pending task acquires only while the counter is positive; a task that
finishes its fetch — successfully or by raising — leaves the `async with`
block and releases its slot. -/
inductive GateStep : GateState → GateState → Prop where
  | acquire (s : GateState) (ha : 0 < s.available) (hp : 0 < s.pending) :
      GateStep s ⟨s.available - 1, s.inFlight + 1, s.pending - 1⟩
  | release (s : GateState) (hf : 0 < s.inFlight) :
      GateStep s ⟨s.available + 1, s.inFlight - 1, s.pending⟩

/-- Start of a `collect` call: the full counter (`asyncio.Semaphore(5)`
with ceiling `c`) and `n` created page tasks. -/
def gateInit (c n : Nat) : GateState := ⟨c, 0, n⟩

/-- States the gate can reach during a run with ceiling `c` and `n` tasks. -/
def GateReachable (c n : Nat) (s : GateState) : Prop :=
  Relation.ReflTransGen GateStep (gateInit c n) s

-- ------------------------- Derived predicates ------------------------- --

/-- Unwrap a gathered page result, defaulting a raised page to `[]`
(used only to state what non-raising runs merge). -/
def okD : Except String (List TransactionRecord) → List TransactionRecord
  | .ok l => l
  | .error _ => []

/-- The spec's ResolvedLocation invariant: latitude and longitude are
both present or both absent. -/
def bothOrNeither (t : Triple) : Prop :=
  t.2.1.isSome = t.2.2.isSome

/-- Whether a document's category label contains the given marker
(total version of `marker in x['category_name']`, meaningful when the
key is present). -/
def docMatches (d : GeoDoc) (marker : String) : Bool :=
  strContains (d.category_name.getD "") marker

/-- The page outcomes `fetch_page` handles softly: a non-200 status, or a
well-formed body whose result code is not `'000'` and whose `resultMsg`
element exists. -/
def pageSoftFail : HttpOutcome → Bool
  | .exn _ => false
  | .resp status body =>
    status != 200 ||
      (match body with
       | .error _ => false
       | .ok root =>
         match root.resultCode with
         | some rc => (rc.text != some "000") && root.resultMsg.isSome
         | none => false)

/-- The page outcomes on which `fetch_page` returns instead of raising:
non-200 status, or a parseable body whose envelope is either success or
an error with `resultMsg` present. -/
def pageNonRaising : HttpOutcome → Bool
  | .exn _ => false
  | .resp status body =>
    status != 200 ||
      (match body with
       | .error _ => false
       | .ok root =>
         match root.resultCode with
         | some rc => (rc.text == some "000") || root.resultMsg.isSome
         | none => true)

-- ------------------------- Helper lemmas ------------------------- --

theorem dictLookup_dictInsert_self {α : Type} (c : List (String × α)) (k : String) (v : α) :
    dictLookup (dictInsert c k v) k = some v := by
  induction c with
  | nil => simp [dictInsert, dictLookup]
  | cons kv rest ih =>
    by_cases h : kv.1 = k
    · simp [dictInsert, h, dictLookup]
    · simp [dictInsert, h, dictLookup, ih]

theorem dictLookup_mem {α : Type} (c : List (String × α)) (k : String) (v : α)
    (h : dictLookup c k = some v) : (k, v) ∈ c := by
  induction c with
  | nil => simp [dictLookup] at h
  | cons kv rest ih =>
    obtain ⟨k0, v0⟩ := kv
    by_cases hk : k0 = k
    · simp only [dictLookup, if_pos hk, Option.some.injEq] at h
      subst hk
      subst h
      exact List.mem_cons_self _ _
    · simp only [dictLookup, if_neg hk] at h
      exact List.mem_cons_of_mem _ (ih h)

theorem mem_dictInsert {α : Type} (c : List (String × α)) (k : String) (v : α)
    (kv : String × α) (h : kv ∈ dictInsert c k v) : kv ∈ c ∨ kv = (k, v) := by
  induction c with
  | nil => simp [dictInsert] at h; right; exact h
  | cons hd rest ih =>
    by_cases hk : hd.1 = k
    · simp [dictInsert, hk] at h
      rcases h with h | h
      · right; exact h
      · left; exact List.mem_cons_of_mem _ h
    · simp [dictInsert, hk] at h
      rcases h with h | h
      · left; exact h ▸ List.mem_cons_self _ _
      · rcases ih h with h' | h'
        · left; exact List.mem_cons_of_mem _ h'
        · right; exact h'

theorem optOfJ_jOfOpt (o : Option String) : optOfJ (jOfOpt o) = some o := by
  cases o <;> rfl

theorem cache_roundtrip (c : Cache) : loadCache (saveCache c) = some c := by
  induction c with
  | nil => rfl
  | cons kv rest ih =>
    obtain ⟨k, p, la, ln⟩ := kv
    simp only [saveCache, List.map_cons, loadCache, loadEntries, loadTriple, optOfJ_jOfOpt]
    simp only [saveCache, loadCache] at ih
    simp [ih]

theorem filterByCategory_eq (docs : List GeoDoc) (m : String)
    (hcat : ∀ d ∈ docs, d.category_name.isSome = true) :
    filterByCategory docs m = .ok (docs.filter (fun d => docMatches d m)) := by
  induction docs with
  | nil => rfl
  | cons d rest ih =>
    have hd := hcat d (List.mem_cons_self _ _)
    obtain ⟨c, hc⟩ := Option.isSome_iff_exists.mp hd
    have ih' := ih (fun d hdm => hcat d (List.mem_cons_of_mem _ hdm))
    simp only [filterByCategory, hc, ih', docMatches, List.filter_cons]
    by_cases hm : strContains c m
    · simp [hm, hc, docMatches]
    · simp [hm, hc, docMatches]

theorem resolve_body_both (resp : GeoResp) (t : Triple)
    (h : resolve_body resp = .ok t) : bothOrNeither t := by
  cases resp with
  | failure m => simp [resolve_body] at h
  | success docsOpt =>
    cases docsOpt with
    | none => simp [resolve_body] at h
    | some docs =>
      cases docs with
      | nil =>
        simp only [resolve_body, Except.ok.injEq] at h
        subst h
        rfl
      | cons d0 rest =>
        simp only [resolve_body] at h
        split at h
        · simp at h
        · split at h
          · simp at h
          · split at h
            · split at h
              · simp only [Except.ok.injEq] at h
                subst h
                rfl
              · simp at h
              · simp at h
            · split at h
              · simp only [Except.ok.injEq] at h
                subst h
                rfl
              · simp at h
              · simp at h

-- ------------------------- Claim C7 ------------------------- --

/-- C7: saving the ResolutionCache (serialising the address → triple
mapping to JSON, each triple a 3-element array of string-or-null) and
loading it back yields a mapping equal to the one before the save. -/
theorem C7_cache_save_load_roundtrip (c : Cache) :
    loadCache (saveCache c) = some c :=
  cache_roundtrip c

-- ------------------------- Claim C5 ------------------------- --

/-- C5: once an address has been resolved and stored in the cache, a
second `get_lat_lon` for the same address returns the identical triple,
issues no network request, and leaves the cache unchanged. -/
theorem C5_second_lookup_is_cache_hit (cache : Cache) (address : String)
    (resp resp2 : GeoResp) (t : Triple)
    (hmiss : dictLookup cache address = none)
    (hok : resolve_body resp = .ok t) :
    (get_lat_lon cache address resp).triple = t ∧
    (get_lat_lon cache address resp).networkCalled = true ∧
    get_lat_lon (get_lat_lon cache address resp).cache address resp2 =
      ⟨t, (get_lat_lon cache address resp).cache, false⟩ := by
  refine ⟨?_, ?_, ?_⟩
  · simp [get_lat_lon, hmiss, hok]
  · simp [get_lat_lon, hmiss, hok]
  · simp [get_lat_lon, hmiss, hok, dictLookup_dictInsert_self]

/-- Witness for C5 at a concrete run: a miss resolved against an empty
document list, then looked up again. -/
theorem C5_second_lookup_is_cache_hit_witness :
    dictLookup ([] : Cache) "서울특별시 종로구 청운동 1" = none ∧
    resolve_body (.success (some [])) = .ok (none, none, none) ∧
    (get_lat_lon [] "서울특별시 종로구 청운동 1" (.success (some []))).triple = (none, none, none) ∧
    (get_lat_lon [] "서울특별시 종로구 청운동 1" (.success (some []))).networkCalled = true ∧
    get_lat_lon (get_lat_lon [] "서울특별시 종로구 청운동 1" (.success (some []))).cache
        "서울특별시 종로구 청운동 1" (.failure "network down") =
      ⟨(none, none, none),
        (get_lat_lon [] "서울특별시 종로구 청운동 1" (.success (some []))).cache, false⟩ :=
  ⟨rfl, rfl,
    C5_second_lookup_is_cache_hit [] "서울특별시 종로구 청운동 1"
      (.success (some [])) (.failure "network down") (none, none, none) rfl rfl⟩

-- ------------------------- Claim C4 ------------------------- --

/-- C4: every triple `get_lat_lon` returns, and every triple in the cache
it leaves behind, has latitude and longitude both present or both absent
(assuming the cache it started from satisfied the same invariant). -/
theorem C4_lat_lng_both_or_neither (cache : Cache) (address : String) (resp : GeoResp)
    (hc : ∀ kv ∈ cache, bothOrNeither kv.2) :
    bothOrNeither (get_lat_lon cache address resp).triple ∧
    ∀ kv ∈ (get_lat_lon cache address resp).cache, bothOrNeither kv.2 := by
  unfold get_lat_lon
  cases hcl : dictLookup cache address with
  | some t =>
    exact ⟨hc _ (dictLookup_mem _ _ _ hcl), hc⟩
  | none =>
    cases hrb : resolve_body resp with
    | ok t =>
      refine ⟨resolve_body_both resp t hrb, ?_⟩
      intro kv hkv
      rcases mem_dictInsert _ _ _ _ hkv with h | h
      · exact hc _ h
      · subst h
        exact resolve_body_both resp t hrb
    | error m =>
      exact ⟨rfl, hc⟩

/-- Witness for C4 at a concrete input: a well-formed one-entry cache and
a failed geocoding call for a fresh address. -/
theorem C4_lat_lng_both_or_neither_witness :
    (∀ kv ∈ [("서울 A", ((some "A아파트", some "37.5", some "127.0") : Triple))], bothOrNeither kv.2) ∧
    bothOrNeither
      (get_lat_lon [("서울 A", (some "A아파트", some "37.5", some "127.0"))] "서울 B"
        (.failure "timeout")).triple :=
  ⟨by intro kv hkv; rcases List.mem_singleton.mp hkv with rfl; rfl,
    (C4_lat_lng_both_or_neither [("서울 A", (some "A아파트", some "37.5", some "127.0"))]
      "서울 B" (.failure "timeout")
      (by intro kv hkv; rcases List.mem_singleton.mp hkv with rfl; rfl)).1⟩

-- ------------------------- Claim C10 ------------------------- --

/-- C10: on a transport or parse failure `get_lat_lon` returns
`(None, None, None)` and leaves the cache unchanged (so the address is
queried again on the next lookup), while a successful response with an
empty `documents` list stores `(None, None, None)` into the cache, so the
address is a no-network cache hit afterwards, and the stored entry
survives the save/load round trip into later runs. -/
theorem C10_failure_uncached_empty_docs_cached (cache : Cache) (address m : String)
    (hmiss : dictLookup cache address = none) :
    (get_lat_lon cache address (.failure m) = ⟨(none, none, none), cache, true⟩) ∧
    (∀ resp2, (get_lat_lon cache address resp2).networkCalled = true) ∧
    (get_lat_lon cache address (.success (some [])) =
      ⟨(none, none, none), dictInsert cache address (none, none, none), true⟩) ∧
    (∀ resp2,
      get_lat_lon (dictInsert cache address (none, none, none)) address resp2 =
        ⟨(none, none, none), dictInsert cache address (none, none, none), false⟩) ∧
    loadCache (saveCache (dictInsert cache address (none, none, none))) =
      some (dictInsert cache address (none, none, none)) := by
  refine ⟨?_, ?_, ?_, ?_, cache_roundtrip _⟩
  · simp [get_lat_lon, hmiss, resolve_body]
  · intro resp2
    cases hrb : resolve_body resp2 <;> simp [get_lat_lon, hmiss, hrb]
  · simp [get_lat_lon, hmiss, resolve_body]
  · intro resp2
    simp [get_lat_lon, dictLookup_dictInsert_self]

/-- Witness for C10 at a concrete input: a fresh address, one failed call
and one empty-documents call. -/
theorem C10_failure_uncached_empty_docs_cached_witness :
    dictLookup ([] : Cache) "경기도 수원시 세류동 1" = none ∧
    get_lat_lon [] "경기도 수원시 세류동 1" (.failure "ERROR:timeout") =
      ⟨(none, none, none), [], true⟩ ∧
    get_lat_lon [] "경기도 수원시 세류동 1" (.success (some [])) =
      ⟨(none, none, none), [("경기도 수원시 세류동 1", (none, none, none))], true⟩ :=
  ⟨rfl,
    (C10_failure_uncached_empty_docs_cached [] "경기도 수원시 세류동 1" "ERROR:timeout" rfl).1,
    (C10_failure_uncached_empty_docs_cached [] "경기도 수원시 세류동 1" "ERROR:timeout" rfl).2.2.1⟩

theorem get_lat_lon_triple_of_ok (cache : Cache) (address : String) (resp : GeoResp)
    (t : Triple) (hmiss : dictLookup cache address = none)
    (hok : resolve_body resp = .ok t) :
    (get_lat_lon cache address resp).triple = t := by
  simp [get_lat_lon, hmiss, hok]

theorem resolve_body_select (docs : List GeoDoc)
    (hcat : ∀ d ∈ docs, d.category_name.isSome = true)
    (hx : ∀ d ∈ docs, d.x.isSome = true)
    (hy : ∀ d ∈ docs, d.y.isSome = true) :
    (docs = [] → resolve_body (.success (some docs)) = .ok (none, none, none)) ∧
    ((∃ d ∈ docs, docMatches d "아파트" = true) →
      ∃ d ∈ docs, docMatches d "아파트" = true ∧
        resolve_body (.success (some docs)) = .ok (d.place_name, d.y, d.x)) ∧
    ((¬ ∃ d ∈ docs, docMatches d "아파트" = true) →
      (∃ d ∈ docs, docMatches d "주거시설" = true) →
      ∃ d ∈ docs, docMatches d "주거시설" = true ∧
        resolve_body (.success (some docs)) = .ok (d.place_name, d.y, d.x)) ∧
    (∀ d0 rest, docs = d0 :: rest →
      (¬ ∃ d ∈ docs, docMatches d "아파트" = true) →
      (¬ ∃ d ∈ docs, docMatches d "주거시설" = true) →
      resolve_body (.success (some docs)) = .ok (none, d0.y, d0.x)) := by
  cases docs with
  | nil =>
    refine ⟨fun _ => rfl, ?_, ?_, ?_⟩
    · rintro ⟨d, hd, -⟩
      cases hd
    · rintro - ⟨d, hd, -⟩
      cases hd
    · intro d0 rest h
      cases h
  | cons c0 crest =>
    have hfA := filterByCategory_eq (c0 :: crest) "아파트" hcat
    have hfB := filterByCategory_eq (c0 :: crest) "주거시설" hcat
    cases hA : (c0 :: crest).filter (fun d => docMatches d "아파트") with
    | cons da ta =>
      have hmemfA : da ∈ (c0 :: crest).filter (fun d => docMatches d "아파트") := by
        rw [hA]
        exact List.mem_cons_self _ _
      have hdmem : da ∈ c0 :: crest := List.mem_of_mem_filter hmemfA
      have hdp : docMatches da "아파트" = true := (List.mem_filter.mp hmemfA).2
      obtain ⟨ya, hya⟩ := Option.isSome_iff_exists.mp (hy da hdmem)
      obtain ⟨xa, hxa⟩ := Option.isSome_iff_exists.mp (hx da hdmem)
      have hres : resolve_body (.success (some (c0 :: crest))) =
          .ok (da.place_name, da.y, da.x) := by
        simp only [resolve_body, hfA, hA, List.isEmpty_cons, hya, hxa]
        simp [hya, hxa]
      refine ⟨(by intro h; cases h), ?_, ?_, ?_⟩
      · rintro -
        exact ⟨da, hdmem, hdp, hres⟩
      · rintro hno -
        exact absurd ⟨da, hdmem, hdp⟩ hno
      · rintro d0 rest - hno -
        exact absurd ⟨da, hdmem, hdp⟩ hno
    | nil =>
      have hnoA : ¬ ∃ d ∈ c0 :: crest, docMatches d "아파트" = true := by
        rintro ⟨d, hd, hp⟩
        exact (List.filter_eq_nil_iff.mp hA d hd) hp
      cases hB : (c0 :: crest).filter (fun d => docMatches d "주거시설") with
      | cons db tb =>
        have hmemfB : db ∈ (c0 :: crest).filter (fun d => docMatches d "주거시설") := by
          rw [hB]
          exact List.mem_cons_self _ _
        have hdmem : db ∈ c0 :: crest := List.mem_of_mem_filter hmemfB
        have hdp : docMatches db "주거시설" = true := (List.mem_filter.mp hmemfB).2
        obtain ⟨yb, hyb⟩ := Option.isSome_iff_exists.mp (hy db hdmem)
        obtain ⟨xb, hxb⟩ := Option.isSome_iff_exists.mp (hx db hdmem)
        have hres : resolve_body (.success (some (c0 :: crest))) =
            .ok (db.place_name, db.y, db.x) := by
          simp only [resolve_body, hfA, hfB, hA, hB, List.isEmpty_nil]
          simp [hyb, hxb]
        refine ⟨(by intro h; cases h), ?_, ?_, ?_⟩
        · rintro ⟨d, hd, hp⟩
          exact absurd ⟨d, hd, hp⟩ hnoA
        · rintro - -
          exact ⟨db, hdmem, hdp, hres⟩
        · rintro d0 rest - - hno
          exact absurd ⟨db, hdmem, hdp⟩ hno
      | nil =>
        obtain ⟨y0, hy0⟩ := Option.isSome_iff_exists.mp (hy c0 (List.mem_cons_self _ _))
        obtain ⟨x0, hx0⟩ := Option.isSome_iff_exists.mp (hx c0 (List.mem_cons_self _ _))
        have hres : resolve_body (.success (some (c0 :: crest))) =
            .ok (none, c0.y, c0.x) := by
          simp only [resolve_body, hfA, hfB, hA, hB, List.isEmpty_nil]
          simp [hy0, hx0]
        refine ⟨(by intro h; cases h), ?_, ?_, ?_⟩
        · rintro ⟨d, hd, hp⟩
          exact absurd ⟨d, hd, hp⟩ hnoA
        · rintro - ⟨d, hd, hp⟩
          exact absurd hp (List.filter_eq_nil_iff.mp hB d hd)
        · rintro d0 rest h - -
          cases h
          exact hres

-- ------------------------- Claim C3 ------------------------- --

/-- C3: for a non-empty, well-formed `documents` list, `get_lat_lon`
selects a candidate whose category label contains "아파트" if any exists
(in every ordering); otherwise one whose label contains "주거시설";
otherwise the first candidate with the place name left unset; and for an
empty `documents` list it returns `(None, None, None)`. -/
theorem C3_tiered_candidate_selection (cache : Cache) (address : String)
    (docs : List GeoDoc)
    (hmiss : dictLookup cache address = none)
    (hcat : ∀ d ∈ docs, d.category_name.isSome = true)
    (hx : ∀ d ∈ docs, d.x.isSome = true)
    (hy : ∀ d ∈ docs, d.y.isSome = true) :
    (docs = [] →
      (get_lat_lon cache address (.success (some docs))).triple = (none, none, none)) ∧
    ((∃ d ∈ docs, docMatches d "아파트" = true) →
      ∃ d ∈ docs, docMatches d "아파트" = true ∧
        (get_lat_lon cache address (.success (some docs))).triple =
          (d.place_name, d.y, d.x)) ∧
    ((¬ ∃ d ∈ docs, docMatches d "아파트" = true) →
      (∃ d ∈ docs, docMatches d "주거시설" = true) →
      ∃ d ∈ docs, docMatches d "주거시설" = true ∧
        (get_lat_lon cache address (.success (some docs))).triple =
          (d.place_name, d.y, d.x)) ∧
    (∀ d0 rest, docs = d0 :: rest →
      (¬ ∃ d ∈ docs, docMatches d "아파트" = true) →
      (¬ ∃ d ∈ docs, docMatches d "주거시설" = true) →
      (get_lat_lon cache address (.success (some docs))).triple = (none, d0.y, d0.x)) := by
  obtain ⟨h1, h2, h3, h4⟩ := resolve_body_select docs hcat hx hy
  refine ⟨?_, ?_, ?_, ?_⟩
  · intro hnil
    exact get_lat_lon_triple_of_ok _ _ _ _ hmiss (h1 hnil)
  · intro hex
    obtain ⟨d, hd, hp, hres⟩ := h2 hex
    exact ⟨d, hd, hp, get_lat_lon_triple_of_ok _ _ _ _ hmiss hres⟩
  · intro hno hex
    obtain ⟨d, hd, hp, hres⟩ := h3 hno hex
    exact ⟨d, hd, hp, get_lat_lon_triple_of_ok _ _ _ _ hmiss hres⟩
  · intro d0 rest hcons hnoA hnoB
    exact get_lat_lon_triple_of_ok _ _ _ _ hmiss (h4 d0 rest hcons hnoA hnoB)

/-- Witness for C3 at a concrete input: three candidates, the apartment
one listed second, all category orderings being covered by the theorem's
universal quantification. -/
theorem C3_tiered_candidate_selection_witness :
    ∃ d ∈ [(⟨some "서울 > 주거시설 > 오피스텔", some "C오피스텔", some "127.01", some "37.52"⟩ : GeoDoc),
           ⟨some "서울 > 아파트 > 단지", some "B아파트", some "127.05", some "37.51"⟩,
           ⟨some "음식점 > 한식", some "D식당", some "127.02", some "37.53"⟩],
      docMatches d "아파트" = true ∧
      (get_lat_lon [] "서울특별시 중구 신당동 100"
        (.success (some [⟨some "서울 > 주거시설 > 오피스텔", some "C오피스텔", some "127.01", some "37.52"⟩,
                         ⟨some "서울 > 아파트 > 단지", some "B아파트", some "127.05", some "37.51"⟩,
                         ⟨some "음식점 > 한식", some "D식당", some "127.02", some "37.53"⟩]))).triple =
        (d.place_name, d.y, d.x) :=
  (C3_tiered_candidate_selection [] "서울특별시 중구 신당동 100" _ rfl
      (by decide) (by decide) (by decide)).2.1
    ⟨⟨some "서울 > 아파트 > 단지", some "B아파트", some "127.05", some "37.51"⟩,
      by decide, by decide⟩

-- ------------------------- Claim C8 ------------------------- --

theorem gate_counter_invariant (c n : Nat) (s : GateState)
    (h : GateReachable c n s) : s.available + s.inFlight = c := by
  induction h with
  | refl => simp [gateInit]
  | tail hs hstep ih =>
    cases hstep with
    | acquire ha hp => dsimp only; omega
    | release hf => dsimp only; omega

/-- C8: with the admission gate's ceiling fixed at 5, for any number of
pending page tasks (the spec's example being 12), every reachable state
has at most 5 fetches in flight, and when the gate is exhausted the only
possible step is the completion of an in-flight fetch (success and
failure alike release the slot); no acquire can happen from an exhausted
gate. -/
theorem C8_at_most_five_in_flight (n : Nat) (s : GateState)
    (h : GateReachable 5 n s) :
    s.inFlight ≤ 5 ∧
    (s.available = 0 → ∀ s', GateStep s s' →
      s'.inFlight + 1 = s.inFlight ∧ s'.available = 1 ∧ s'.pending = s.pending) := by
  have hinv := gate_counter_invariant 5 n s h
  refine ⟨by omega, ?_⟩
  intro h0 s' hstep
  cases hstep with
  | acquire ha hp => omega
  | release hf =>
    refine ⟨?_, ?_, ?_⟩ <;> dsimp only <;> omega

/-- Witness for C8 at a concrete reachable state with the claim's example
of 12 pending tasks: one task has entered the gate, eleven still pend. -/
theorem C8_at_most_five_in_flight_witness :
    GateReachable 5 12 ⟨4, 1, 11⟩ ∧ (GateState.mk 4 1 11).inFlight ≤ 5 := by
  have hr : GateReachable 5 12 ⟨4, 1, 11⟩ :=
    Relation.ReflTransGen.single
      (GateStep.acquire (gateInit 5 12) (by decide) (by decide))
  exact ⟨hr, (C8_at_most_five_in_flight 12 _ hr).1⟩

-- ------------------------- Claim C9 ------------------------- --

/-- C9: a fetched record is appended to the output data set exactly when
its resolved latitude and longitude are both non-null and non-empty
(Python truthiness of `lat` and `lng`); otherwise the record is silently
omitted and the output list is unchanged. -/
theorem C9_append_iff_coords_truthy (cache : Cache) (resp : GeoResp)
    (korName sggCd : String) (x : TransactionRecord) (data : List OutRecord)
    (umd jibun aptNm year month day exclu gbn fl amount : String)
    (h1 : dictLookup x "umdNm" = some umd)
    (h2 : dictLookup x "jibun" = some jibun)
    (h3 : dictLookup x "aptNm" = some aptNm)
    (h4 : dictLookup x "dealYear" = some year)
    (h5 : dictLookup x "dealMonth" = some month)
    (h6 : dictLookup x "dealDay" = some day)
    (h7 : dictLookup x "excluUseAr" = some exclu)
    (h8 : dictLookup x "dealingGbn" = some gbn)
    (h9 : dictLookup x "floor" = some fl)
    (h10 : dictLookup x "dealAmount" = some amount) :
    ((pyTruthyStr (get_lat_lon cache (korName ++ " " ++ umd ++ " " ++ jibun) resp).triple.2.1 &&
      pyTruthyStr (get_lat_lon cache (korName ++ " " ++ umd ++ " " ++ jibun) resp).triple.2.2) = true →
      process_record cache resp korName sggCd x data =
        .ok (data ++ [⟨korName ++ " " ++ umd ++ " " ++ jibun,
          (match (get_lat_lon cache (korName ++ " " ++ umd ++ " " ++ jibun) resp).triple.1 with
            | none => aptNm
            | some p => p), aptNm,
          (get_lat_lon cache (korName ++ " " ++ umd ++ " " ++ jibun) resp).triple.2.1.getD "",
          (get_lat_lon cache (korName ++ " " ++ umd ++ " " ++ jibun) resp).triple.2.2.getD "",
          year ++ zfill month 2 ++ zfill day 2, sggCd, exclu, gbn, fl, amount⟩],
          (get_lat_lon cache (korName ++ " " ++ umd ++ " " ++ jibun) resp).cache,
          (get_lat_lon cache (korName ++ " " ++ umd ++ " " ++ jibun) resp).networkCalled)) ∧
    ((pyTruthyStr (get_lat_lon cache (korName ++ " " ++ umd ++ " " ++ jibun) resp).triple.2.1 &&
      pyTruthyStr (get_lat_lon cache (korName ++ " " ++ umd ++ " " ++ jibun) resp).triple.2.2) = false →
      process_record cache resp korName sggCd x data =
        .ok (data,
          (get_lat_lon cache (korName ++ " " ++ umd ++ " " ++ jibun) resp).cache,
          (get_lat_lon cache (korName ++ " " ++ umd ++ " " ++ jibun) resp).networkCalled)) := by
  rcases hr : get_lat_lon cache (korName ++ " " ++ umd ++ " " ++ jibun) resp with ⟨⟨pn, lat, lng⟩, c2, nc⟩
  constructor
  · intro htruthy
    simp only [hr] at htruthy ⊢
    cases pn with
    | none =>
      simp [process_record, pySubscript, Bind.bind, Except.bind,
        h1, h2, h3, h4, h5, h6, h7, h8, h9, h10, hr, htruthy]
    | some p =>
      simp [process_record, pySubscript, Bind.bind, Except.bind, Pure.pure, Except.pure,
        h1, h2, h3, h4, h5, h6, h7, h8, h9, h10, hr, htruthy]
  · intro hfalsy
    simp only [hr] at hfalsy ⊢
    simp [process_record, pySubscript, Bind.bind, Except.bind, h1, h2, hr, hfalsy]

/-- Witness for C9 at a concrete record and geocoding response whose
resolved coordinates are truthy: the enriched record is appended. -/
theorem C9_append_iff_coords_truthy_witness :
    process_record []
        (.success (some [⟨some "서울 > 아파트", some "B아파트", some "127.05", some "37.51"⟩]))
        "서울특별시 중구" "11140"
        [("umdNm", "신당동"), ("jibun", "100"), ("aptNm", "B아파트"), ("dealYear", "2025"),
         ("dealMonth", "9"), ("dealDay", "3"), ("excluUseAr", "84.9"), ("dealingGbn", "중개거래"),
         ("floor", "10"), ("dealAmount", "100,000")] [] =
      .ok ([⟨"서울특별시 중구 신당동 100", "B아파트", "B아파트", "37.51", "127.05", "20250903",
        "11140", "84.9", "중개거래", "10", "100,000"⟩],
        [("서울특별시 중구 신당동 100", (some "B아파트", some "37.51", some "127.05"))], true) :=
  (C9_append_iff_coords_truthy []
    (.success (some [⟨some "서울 > 아파트", some "B아파트", some "127.05", some "37.51"⟩]))
    "서울특별시 중구" "11140"
    [("umdNm", "신당동"), ("jibun", "100"), ("aptNm", "B아파트"), ("dealYear", "2025"),
     ("dealMonth", "9"), ("dealDay", "3"), ("excluUseAr", "84.9"), ("dealingGbn", "중개거래"),
     ("floor", "10"), ("dealAmount", "100,000")] []
    "신당동" "100" "B아파트" "2025" "9" "3" "84.9" "중개거래" "10" "100,000"
    rfl rfl rfl rfl rfl rfl rfl rfl rfl rfl).1 rfl

-- ------------------------- Collector lemmas ------------------------- --

theorem gather_all_ok (rs : List (Except String (List TransactionRecord)))
    (h : ∀ r ∈ rs, ∃ l, r = .ok l) : gather rs = .ok (rs.map okD) := by
  induction rs with
  | nil => rfl
  | cons r rest ih =>
    obtain ⟨l, hl⟩ := h r (List.mem_cons_self _ _)
    subst hl
    have ih' := ih (fun r hr => h r (List.mem_cons_of_mem _ hr))
    simp [gather, ih', okD]

theorem fetch_page_soft_fail (p : Nat) (o : HttpOutcome)
    (h : pageSoftFail o = true) :
    (fetch_page p o).items = .ok [] ∧ (fetch_page p o).logs ≠ [] := by
  cases o with
  | exn m => simp [pageSoftFail] at h
  | resp status body =>
    by_cases hs : status = 200
    · subst hs
      cases body with
      | error m => simp [pageSoftFail] at h
      | ok root =>
        cases hrc : root.resultCode with
        | none => simp [pageSoftFail, hrc] at h
        | some rc =>
          simp only [pageSoftFail, hrc] at h
          simp at h
          obtain ⟨hne, hmsg⟩ := h
          obtain ⟨msgElem, hmsgEq⟩ := Option.isSome_iff_exists.mp hmsg
          simp [fetch_page, hrc, hne, hmsgEq]
    · simp [fetch_page, hs]

theorem fetch_page_nonraising (p : Nat) (o : HttpOutcome)
    (h : pageNonRaising o = true) :
    ∃ l, (fetch_page p o).items = .ok l := by
  cases o with
  | exn m => simp [pageNonRaising] at h
  | resp status body =>
    by_cases hs : status = 200
    · subst hs
      cases body with
      | error m => simp [pageNonRaising] at h
      | ok root =>
        cases hrc : root.resultCode with
        | none =>
          exact ⟨root.items.map parseItem, by simp [fetch_page, hrc]⟩
        | some rc =>
          by_cases hok : rc.text = some "000"
          · exact ⟨root.items.map parseItem, by simp [fetch_page, hrc, hok]⟩
          · simp only [pageNonRaising, hrc] at h
            simp [hok] at h
            obtain ⟨msgElem, hmsgEq⟩ := Option.isSome_iff_exists.mp h
            exact ⟨[], by simp [fetch_page, hrc, hok, hmsgEq]⟩
    · exact ⟨[], by simp [fetch_page, hs]⟩

theorem pageNosFor_of_le_one (tp : Int) (h : tp ≤ 1) : pageNosFor tp = [] := by
  unfold pageNosFor
  rw [Int.toNat_eq_zero.mpr (by omega)]
  rfl

theorem collect_ok_shape (st : Nat) (root : XmlRoot) (po : Nat → HttpOutcome)
    (rows : Nat) (tcElem : XmlElem) (tc : Int)
    (hrows : rows ≠ 0) (htc : root.totalCount = some tcElem)
    (hpi : python_int tcElem.text = .ok tc)
    (hall : ∀ p ∈ pageNosFor (py_ceil_div tc rows),
      ∃ l, (fetch_page p (po p)).items = .ok l) :
    (fetch_all_apt_trade_data_async (.resp st (.ok root)) po rows).requestedPages =
      1 :: pageNosFor (py_ceil_div tc rows) ∧
    (fetch_all_apt_trade_data_async (.resp st (.ok root)) po rows).result =
      .ok (root.items.map parseItem ++
        ((pageNosFor (py_ceil_div tc rows)).map
          (fun p => okD (fetch_page p (po p)).items)).flatten) := by
  have hg : gather (((pageNosFor (py_ceil_div tc rows)).map
        (fun p => fetch_page p (po p))).map PageResult.items) =
      .ok ((((pageNosFor (py_ceil_div tc rows)).map
        (fun p => fetch_page p (po p))).map PageResult.items).map okD) := by
    apply gather_all_ok
    intro r hr
    simp only [List.mem_map] at hr
    obtain ⟨pr, hpr, hreq⟩ := hr
    obtain ⟨p, hp, hfp⟩ := hpr
    subst hfp
    subst hreq
    exact hall p hp
  constructor
  · simp only [fetch_all_apt_trade_data_async, htc, hpi, if_neg hrows, hg]
  · simp only [fetch_all_apt_trade_data_async, htc, hpi, if_neg hrows, hg]
    simp only [List.map_map]
    rfl

-- ------------------------- Claim C1 ------------------------- --

/-- C1: with `totalCount = 25` and `pageSize = 10` the collector issues
exactly the page requests 1, 2, 3 (`totalPages = ceil(25/10) = 3`) and
returns the page-1 items followed by the items of pages 2 and 3; and
whenever `totalPages ≤ 1` it returns exactly the page-1 items from the
single request for page 1. -/
theorem C1_pagination_fan_out (st : Nat) (root : XmlRoot) (po : Nat → HttpOutcome) :
    (∀ l2 l3 : List TransactionRecord,
      root.totalCount = some ⟨some "25"⟩ →
      (fetch_page 2 (po 2)).items = .ok l2 →
      (fetch_page 3 (po 3)).items = .ok l3 →
      (fetch_all_apt_trade_data_async (.resp st (.ok root)) po 10).requestedPages =
        [1, 2, 3] ∧
      (fetch_all_apt_trade_data_async (.resp st (.ok root)) po 10).result =
        .ok (root.items.map parseItem ++ (l2 ++ l3))) ∧
    (∀ (tcElem : XmlElem) (tc : Int) (rows : Nat),
      root.totalCount = some tcElem → python_int tcElem.text = .ok tc →
      rows ≠ 0 → py_ceil_div tc rows ≤ 1 →
      (fetch_all_apt_trade_data_async (.resp st (.ok root)) po rows).requestedPages = [1] ∧
      (fetch_all_apt_trade_data_async (.resp st (.ok root)) po rows).result =
        .ok (root.items.map parseItem)) := by
  constructor
  · intro l2 l3 htc hl2 hl3
    have hpages : pageNosFor (py_ceil_div 25 10) = [2, 3] := rfl
    have hshape := collect_ok_shape st root po 10 ⟨some "25"⟩ 25 (by decide) htc rfl ?_
    · rw [hpages] at hshape
      refine ⟨hshape.1, ?_⟩
      rw [hshape.2]
      simp [hl2, hl3, okD]
    · rw [hpages]
      intro p hp
      rcases List.mem_pair.mp hp with rfl | rfl
      · exact ⟨l2, hl2⟩
      · exact ⟨l3, hl3⟩
  · intro tcElem tc rows htc hpi hrows hle
    have hpages := pageNosFor_of_le_one _ hle
    have hshape := collect_ok_shape st root po rows tcElem tc hrows htc hpi ?_
    · rw [hpages] at hshape
      refine ⟨hshape.1, ?_⟩
      rw [hshape.2]
      simp
    · rw [hpages]
      intro p hp
      cases hp

/-- Witness for C1 at a concrete first page announcing 25 records and
concrete responses for pages 2 and 3. -/
theorem C1_pagination_fan_out_witness :
    (fetch_all_apt_trade_data_async
        (.resp 200 (.ok ⟨some ⟨some "000"⟩, none, some ⟨some "25"⟩, [⟨[⟨"aptNm", some "A"⟩]⟩]⟩))
        (fun _ => .resp 200 (.ok ⟨some ⟨some "000"⟩, none, none, [⟨[⟨"aptNm", some "B"⟩]⟩]⟩))
        10).requestedPages = [1, 2, 3] ∧
    (fetch_all_apt_trade_data_async
        (.resp 200 (.ok ⟨some ⟨some "000"⟩, none, some ⟨some "25"⟩, [⟨[⟨"aptNm", some "A"⟩]⟩]⟩))
        (fun _ => .resp 200 (.ok ⟨some ⟨some "000"⟩, none, none, [⟨[⟨"aptNm", some "B"⟩]⟩]⟩))
        10).result =
      .ok ([[("aptNm", "A")]] ++ ([[("aptNm", "B")]] ++ [[("aptNm", "B")]])) :=
  (C1_pagination_fan_out 200
    ⟨some ⟨some "000"⟩, none, some ⟨some "25"⟩, [⟨[⟨"aptNm", some "A"⟩]⟩]⟩
    (fun _ => .resp 200 (.ok ⟨some ⟨some "000"⟩, none, none, [⟨[⟨"aptNm", some "B"⟩]⟩]⟩))).1
    [[("aptNm", "B")]] [[("aptNm", "B")]] rfl rfl rfl

-- ------------------------- Claim C6 ------------------------- --

/-- C6 counterexample: a first-page response that announces
`totalCount = 0` yet carries one `item` element.  The collector issues no
page request beyond page 1, but returns that page-1 item rather than the
empty list the claim promises. -/
theorem C6_counterexample_zero_total_with_items :
    (fetch_all_apt_trade_data_async
        (.resp 200 (.ok ⟨some ⟨some "000"⟩, none, some ⟨some "0"⟩, [⟨[⟨"aptNm", some "X"⟩]⟩]⟩))
        (fun _ => .exn "never requested") 10).requestedPages = [1] ∧
    (fetch_all_apt_trade_data_async
        (.resp 200 (.ok ⟨some ⟨some "000"⟩, none, some ⟨some "0"⟩, [⟨[⟨"aptNm", some "X"⟩]⟩]⟩))
        (fun _ => .exn "never requested") 10).result = .ok [[("aptNm", "X")]] ∧
    (fetch_all_apt_trade_data_async
        (.resp 200 (.ok ⟨some ⟨some "000"⟩, none, some ⟨some "0"⟩, [⟨[⟨"aptNm", some "X"⟩]⟩]⟩))
        (fun _ => .exn "never requested") 10).result ≠ .ok [] := by
  refine ⟨rfl, rfl, ?_⟩
  intro h
  have h' : Except.ok (ε := String) [[("aptNm", "X")]] = Except.ok [] := h
  simp at h'

/-- C6 as amended: with no `totalCount` element the collector returns the
empty list and requests no page beyond page 1; with `totalCount = 0` it
requests no page beyond page 1 and returns exactly the page-1 items
(the empty list whenever page 1 carries no item elements). -/
theorem C6_zero_or_absent_total (st : Nat) (root : XmlRoot) (po : Nat → HttpOutcome)
    (rows : Nat) (hrows : rows ≠ 0) :
    (root.totalCount = none →
      (fetch_all_apt_trade_data_async (.resp st (.ok root)) po rows).requestedPages = [1] ∧
      (fetch_all_apt_trade_data_async (.resp st (.ok root)) po rows).result = .ok []) ∧
    (∀ tcElem, root.totalCount = some tcElem → python_int tcElem.text = .ok 0 →
      (fetch_all_apt_trade_data_async (.resp st (.ok root)) po rows).requestedPages = [1] ∧
      (fetch_all_apt_trade_data_async (.resp st (.ok root)) po rows).result =
        .ok (root.items.map parseItem)) := by
  constructor
  · intro htc
    constructor <;> simp [fetch_all_apt_trade_data_async, htc]
  · intro tcElem htc hpi
    have hle : py_ceil_div 0 rows ≤ 1 := by
      unfold py_ceil_div
      have h0 : Int.ediv 0 (Int.ofNat rows) = Int.ofNat (0 / rows) := rfl
      rw [neg_zero, h0, Nat.zero_div]
      decide
    have hpages := pageNosFor_of_le_one _ hle
    have hshape := collect_ok_shape st root po rows tcElem 0 hrows htc hpi ?_
    · rw [hpages] at hshape
      refine ⟨hshape.1, ?_⟩
      rw [hshape.2]
      simp
    · rw [hpages]
      intro p hp
      cases hp

/-- Witness for the amended C6 at a concrete first page with no
`totalCount` element. -/
theorem C6_zero_or_absent_total_witness :
    (fetch_all_apt_trade_data_async
        (.resp 200 (.ok ⟨some ⟨some "000"⟩, none, none, [⟨[⟨"aptNm", some "X"⟩]⟩]⟩))
        (fun _ => .exn "never requested") 10).requestedPages = [1] ∧
    (fetch_all_apt_trade_data_async
        (.resp 200 (.ok ⟨some ⟨some "000"⟩, none, none, [⟨[⟨"aptNm", some "X"⟩]⟩]⟩))
        (fun _ => .exn "never requested") 10).result = .ok [] :=
  (C6_zero_or_absent_total 200 ⟨some ⟨some "000"⟩, none, none, [⟨[⟨"aptNm", some "X"⟩]⟩]⟩
    (fun _ => .exn "never requested") 10 (by decide)).1 rfl

-- ------------------------- Claim C2 ------------------------- --

/-- C2 counterexample: with `totalCount = 25` and pages 2 and 3 fan-out,
a transport error on page 2 alone makes the whole collection raise —
the returned value is the propagated exception, not a list, although
page 1 parsed fine and page 3 would have contributed an item.  The
transport-error clause of the claim is therefore false on this code. -/
theorem C2_counterexample_transport_error_aborts :
    (fetch_page 3 ((fun p => if p = 2 then HttpOutcome.exn "ConnectionError"
        else HttpOutcome.resp 200 (.ok ⟨some ⟨some "000"⟩, none, none, [⟨[⟨"b", some "2"⟩]⟩]⟩)) 3)).items =
      .ok [[("b", "2")]] ∧
    (fetch_all_apt_trade_data_async
        (.resp 200 (.ok ⟨some ⟨some "000"⟩, none, some ⟨some "25"⟩, [⟨[⟨"a", some "1"⟩]⟩]⟩))
        (fun p => if p = 2 then HttpOutcome.exn "ConnectionError"
          else HttpOutcome.resp 200 (.ok ⟨some ⟨some "000"⟩, none, none, [⟨[⟨"b", some "2"⟩]⟩]⟩))
        10).requestedPages = [1, 2, 3] ∧
    (fetch_all_apt_trade_data_async
        (.resp 200 (.ok ⟨some ⟨some "000"⟩, none, some ⟨some "25"⟩, [⟨[⟨"a", some "1"⟩]⟩]⟩))
        (fun p => if p = 2 then HttpOutcome.exn "ConnectionError"
          else HttpOutcome.resp 200 (.ok ⟨some ⟨some "000"⟩, none, none, [⟨[⟨"b", some "2"⟩]⟩]⟩))
        10).result = .error "ConnectionError" ∧
    ∀ l, (fetch_all_apt_trade_data_async
        (.resp 200 (.ok ⟨some ⟨some "000"⟩, none, some ⟨some "25"⟩, [⟨[⟨"a", some "1"⟩]⟩]⟩))
        (fun p => if p = 2 then HttpOutcome.exn "ConnectionError"
          else HttpOutcome.resp 200 (.ok ⟨some ⟨some "000"⟩, none, none, [⟨[⟨"b", some "2"⟩]⟩]⟩))
        10).result ≠ .ok l := by
  refine ⟨rfl, rfl, rfl, ?_⟩
  intro l h
  have h' : Except.error (α := List TransactionRecord) "ConnectionError" = Except.ok l := h
  simp at h'

/-- C2 as amended: an individual page answered with a non-200 status, or
with an error envelope whose result code is not `'000'` (and whose
`resultMsg` element is present), contributes zero items, logs a
diagnostic, and does not abort the other pages or the overall collection;
but a page whose coroutine raises (transport error or unparseable body)
propagates through the gather and aborts the whole `collect` call. -/
theorem C2_soft_failures_contribute_nothing (po : Nat → HttpOutcome) (st rows : Nat)
    (root : XmlRoot) (tcElem : XmlElem) (tc : Int)
    (hrows : rows ≠ 0) (htc : root.totalCount = some tcElem)
    (hpi : python_int tcElem.text = .ok tc)
    (hall : ∀ p ∈ pageNosFor (py_ceil_div tc rows), pageNonRaising (po p) = true) :
    (∀ p, pageSoftFail (po p) = true →
      (fetch_page p (po p)).items = .ok [] ∧ (fetch_page p (po p)).logs ≠ []) ∧
    (fetch_all_apt_trade_data_async (.resp st (.ok root)) po rows).result =
      .ok (root.items.map parseItem ++
        ((pageNosFor (py_ceil_div tc rows)).map
          (fun p => okD (fetch_page p (po p)).items)).flatten) := by
  constructor
  · intro p hp
    exact fetch_page_soft_fail p (po p) hp
  · exact (collect_ok_shape st root po rows tcElem tc hrows htc hpi
      (fun p hp => fetch_page_nonraising p (po p) (hall p hp))).2

/-- Witness for the amended C2: page 2 fails with HTTP 500 and
contributes nothing, page 3 succeeds, the collection still returns the
merged page-1 and page-3 items. -/
theorem C2_soft_failures_contribute_nothing_witness :
    (fetch_page 2 ((fun p => if p = 2 then HttpOutcome.resp 500 (.error "not parsed")
        else HttpOutcome.resp 200 (.ok ⟨some ⟨some "000"⟩, none, none, [⟨[⟨"q", some "3"⟩]⟩]⟩)) 2)).items =
      .ok [] ∧
    (fetch_all_apt_trade_data_async
        (.resp 200 (.ok ⟨some ⟨some "000"⟩, none, some ⟨some "25"⟩, [⟨[⟨"p", some "1"⟩]⟩]⟩))
        (fun p => if p = 2 then HttpOutcome.resp 500 (.error "not parsed")
          else HttpOutcome.resp 200 (.ok ⟨some ⟨some "000"⟩, none, none, [⟨[⟨"q", some "3"⟩]⟩]⟩))
        10).result = .ok [[("p", "1")], [("q", "3")]] :=
  ⟨((C2_soft_failures_contribute_nothing
      (fun p => if p = 2 then HttpOutcome.resp 500 (.error "not parsed")
        else HttpOutcome.resp 200 (.ok ⟨some ⟨some "000"⟩, none, none, [⟨[⟨"q", some "3"⟩]⟩]⟩))
      200 10 ⟨some ⟨some "000"⟩, none, some ⟨some "25"⟩, [⟨[⟨"p", some "1"⟩]⟩]⟩
      ⟨some "25"⟩ 25 (by decide) rfl rfl (by decide)).1 2 (by decide)).1,
    (C2_soft_failures_contribute_nothing
      (fun p => if p = 2 then HttpOutcome.resp 500 (.error "not parsed")
        else HttpOutcome.resp 200 (.ok ⟨some ⟨some "000"⟩, none, none, [⟨[⟨"q", some "3"⟩]⟩]⟩))
      200 10 ⟨some ⟨some "000"⟩, none, some ⟨some "25"⟩, [⟨[⟨"p", some "1"⟩]⟩]⟩
      ⟨some "25"⟩ 25 (by decide) rfl rfl (by decide)).2⟩
